import Mathlib

/-!
# Verification of the invoicing API core

Shallow embedding of `src/app/routes/invoices.py` (an invoicing HTTP API over
a sqlite store whose schema is created by
`src/migrations/migrations/002_create_invoicing_tables.py`).

Modelling choices:
* sqlite `REAL` values (prices, tax, totals) are modelled as `ℚ`: the Python
  code only adds and multiplies them, and the claims are about those exact
  arithmetic relations.
* Dates travel through the code as ISO-8601 strings (the handlers call
  `isoformat`/`fromisoformat` on the boundary); we model them as `String`.
* The four relations are lists of rows.  `AUTOINCREMENT` primary keys are
  modelled with monotone counters (`nextInvoiceId`, `nextItemId`) that never
  decrease, matching sqlite's `AUTOINCREMENT` guarantee that row ids are
  never reused after deletion.
* The `UNIQUE` constraint on `invoices.invoice_no` (declared in the
  migration) is modelled inside the header insert: a violating insert fails
  with the sqlite diagnostic, which `create_invoice`'s `except Exception`
  handler wraps into an HTTP 500 whose detail is
  `"Database error: " ++ <diagnostic>` — exactly the f-string
  `"Database error: "` followed by `str(exc)` in the source.
* Python truthiness: `if invoice_no:` and `payload.address or ...` treat
  `None` and the empty string alike; `truthyNo` / the address resolution
  reproduce this.
* `get_db` itself is not part of the sources; every error path modelled here
  raises before any row is written, so no rollback behaviour needs to be
  assumed: error results simply carry the database state unchanged.
-/

/-- Row of the `clients` table. -/
structure Client where
  id : Nat
  name : String
  address : String
  company_registration_no : String
deriving DecidableEq, Repr

/-- Row of the `products` table. -/
structure Product where
  id : Nat
  name : String
  price : ℚ
deriving DecidableEq, Repr

/-- Row of the `invoices` table. -/
structure InvoiceRow where
  id : Nat
  invoice_no : String
  issue_date : String
  due_date : String
  client_id : Nat
  address : String
  tax : ℚ
  total : ℚ
deriving DecidableEq, Repr

/-- Row of the `invoice_items` table. -/
structure ItemRow where
  id : Nat
  invoice_id : Nat
  product_id : Nat
  quantity : Nat
  unit_price : ℚ
  line_total : ℚ
deriving DecidableEq, Repr

/-- The database state: the four relations plus the `AUTOINCREMENT`
counters of the two tables this API writes to. -/
structure DB where
  clients : List Client
  products : List Product
  invoices : List InvoiceRow
  invoice_items : List ItemRow
  nextInvoiceId : Nat
  nextItemId : Nat
deriving DecidableEq, Repr

/-- Pydantic model `InvoiceItemCreate`. -/
structure InvoiceItemCreate where
  product_id : Nat
  quantity : Nat
deriving DecidableEq, Repr

/-- Pydantic model `InvoiceCreate`. -/
structure InvoiceCreate where
  invoice_no : Option String
  issue_date : String
  due_date : String
  client_id : Nat
  address : Option String
  items : List InvoiceItemCreate
  tax : ℚ
deriving DecidableEq, Repr

/-- Pydantic model `ClientResponse`. -/
structure ClientResponse where
  id : Nat
  name : String
  address : String
  company_registration_no : String
deriving DecidableEq, Repr

/-- Pydantic model `InvoiceItemResponse`. -/
structure InvoiceItemResponse where
  product_id : Nat
  name : String
  unit_price : ℚ
  quantity : Nat
  line_total : ℚ
deriving DecidableEq, Repr

/-- Pydantic model `InvoiceResponse`. -/
structure InvoiceResponse where
  id : Nat
  invoice_no : String
  issue_date : String
  due_date : String
  client : ClientResponse
  address : String
  items : List InvoiceItemResponse
  tax : ℚ
  total : ℚ
deriving DecidableEq, Repr

/-- Model of `raise HTTPException(status_code, detail)`. -/
structure HTTPError where
  status_code : Nat
  detail : String
deriving DecidableEq, Repr

/-- Function `_fetch_client`: `SELECT ... FROM clients WHERE id = ?` + `fetchone`. -/
def _fetch_client (db : DB) (client_id : Nat) : Option Client :=
  db.clients.find? (fun c => c.id == client_id)

/-- Query `SELECT id, name, price FROM products WHERE id = ?` + `fetchone`. -/
def fetchProduct (db : DB) (product_id : Nat) : Option Product :=
  db.products.find? (fun p => p.id == product_id)

/-- Value of `MAX(id)` over a list of invoice rows (0 when empty, i.e. `COALESCE`). -/
def maxIdOf (l : List InvoiceRow) : Nat :=
  l.foldl (fun m r => max m r.id) 0

/-- Value of `COALESCE(MAX(id), 0)` over the `invoices` table. -/
def maxInvoiceId (db : DB) : Nat :=
  maxIdOf db.invoices

/-- Python `f"{n:05d}"`: decimal digits of `n` zero-padded to width ≥ 5. -/
def pad5 (n : Nat) : String :=
  let s := toString n
  String.mk (List.replicate (5 - s.length) '0') ++ s

/-- Function `_generate_invoice_no`: the tag `INV-` followed by the
zero-padded value of max id + 1. -/
def _generate_invoice_no (db : DB) : String :=
  "INV-" ++ pad5 (maxInvoiceId db + 1)

/-- Whether `SELECT 1 FROM invoices WHERE invoice_no = ?` returned a row. -/
def invoiceNoExists (db : DB) (s : String) : Bool :=
  db.invoices.any (fun r => r.invoice_no == s)

/-- Python truthiness of `payload.invoice_no`: `None` and `""` are falsy. -/
def truthyNo : Option String → Option String
  | some s => if s = "" then none else some s
  | none => none

/-- The sqlite diagnostic raised when the header insert violates the
`UNIQUE` constraint on `invoices.invoice_no`. -/
def uniqueViolationMsg : String := "UNIQUE constraint failed: invoices.invoice_no"

/-- The product-resolution loop of `create_invoice` (lines 91-111): resolve
each item's product in input order, snapshot price and name, compute the
line total; fail 404 naming the offending product id on the first miss. -/
def resolveItems (db : DB) : List InvoiceItemCreate → Except HTTPError (List InvoiceItemResponse)
  | [] => .ok []
  | item :: rest =>
    match fetchProduct db item.product_id with
    | none => .error ⟨404, "Product not found: " ++ toString item.product_id⟩
    | some product =>
      match resolveItems db rest with
      | .error e => .error e
      | .ok tail =>
        .ok ({ product_id := product.id
               name := product.name
               unit_price := product.price
               quantity := item.quantity
               line_total := product.price * (item.quantity : ℚ) } :: tail)

/-- The `INSERT INTO invoice_items ...` loop: each row gets the next
`AUTOINCREMENT` id, in input order. -/
def insertItems (invoice_id : Nat) (db : DB) : List InvoiceItemResponse → DB
  | [] => db
  | item :: rest =>
    insertItems invoice_id
      { db with
        invoice_items := db.invoice_items ++
          [{ id := db.nextItemId
             invoice_id := invoice_id
             product_id := item.product_id
             quantity := item.quantity
             unit_price := item.unit_price
             line_total := item.line_total }]
        nextItemId := db.nextItemId + 1 }
      rest

/-- Line 89: `address = payload.address or client_row["address"]` — Python
`or`, so an absent or empty override falls back to the client's address. -/
def resolveAddress (payload : InvoiceCreate) (client_row : Client) : String :=
  match payload.address with
  | some a => if a = "" then client_row.address else a
  | none => client_row.address

/-- Lines 89-174 of `create_invoice`: address resolution, pricing loop,
header insert (with the `UNIQUE` constraint of the schema; a violation is
the sqlite error the `except Exception` handler turns into a 500), item
inserts, and response assembly from the in-memory data. -/
def finishCreate (db : DB) (payload : InvoiceCreate) (client_row : Client)
    (invoice_no : String) : Except HTTPError InvoiceResponse × DB :=
  let address := resolveAddress payload client_row
  match resolveItems db payload.items with
  | .error e => (.error e, db)
  | .ok item_rows =>
    let total := item_rows.foldl (fun t r => t + r.line_total) 0
    let total_with_tax := total + payload.tax
    if invoiceNoExists db invoice_no then
      (.error ⟨500, "Database error: " ++ uniqueViolationMsg⟩, db)
    else
      let invoice_id := db.nextInvoiceId
      let db1 : DB :=
        { db with
          invoices := db.invoices ++
            [{ id := invoice_id
               invoice_no := invoice_no
               issue_date := payload.issue_date
               due_date := payload.due_date
               client_id := payload.client_id
               address := address
               tax := payload.tax
               total := total_with_tax }]
          nextInvoiceId := invoice_id + 1 }
      let db2 := insertItems invoice_id db1 item_rows
      (.ok { id := invoice_id
             invoice_no := invoice_no
             issue_date := payload.issue_date
             due_date := payload.due_date
             client := { id := client_row.id
                         name := client_row.name
                         address := client_row.address
                         company_registration_no := client_row.company_registration_no }
             address := address
             items := item_rows
             tax := payload.tax
             total := total_with_tax }, db2)

/-- Endpoint `POST /invoices` (`create_invoice`).  The second component is the
database state after the request; every `HTTPException` in the source is
raised before any row is written, so error results carry `db` unchanged. -/
def create_invoice (db : DB) (payload : InvoiceCreate) :
    Except HTTPError InvoiceResponse × DB :=
  if payload.items.isEmpty then
    (.error ⟨400, "Invoice must include at least one item"⟩, db)
  else
    match _fetch_client db payload.client_id with
    | none => (.error ⟨404, "Client not found"⟩, db)
    | some client_row =>
      match truthyNo payload.invoice_no with
      | some s =>
        if invoiceNoExists db s then
          (.error ⟨409, "Invoice number already exists"⟩, db)
        else
          finishCreate db payload client_row s
      | none =>
        finishCreate db payload client_row (_generate_invoice_no db)

/-- Insertion into a list of item rows ordered by ascending `id`
(`ORDER BY invoice_items.id`). -/
def insertById (r : ItemRow) : List ItemRow → List ItemRow
  | [] => [r]
  | x :: xs => if r.id ≤ x.id then r :: x :: xs else x :: insertById r xs

/-- Clause `ORDER BY invoice_items.id` as an insertion sort. -/
def orderById : List ItemRow → List ItemRow
  | [] => []
  | x :: xs => insertById x (orderById xs)

/-- Endpoint `GET /invoices/...` (`get_invoice`): header row joined against its
client, then the item rows joined against their products (inner join: an
item whose product is absent yields no row), ordered by item id.  A pure
read, so only the response is returned. -/
def get_invoice (db : DB) (invoice_id : Nat) : Except HTTPError InvoiceResponse :=
  match db.invoices.find? (fun r => r.id == invoice_id) with
  | none => .error ⟨404, "Invoice not found"⟩
  | some invoice_row =>
    match db.clients.find? (fun c => c.id == invoice_row.client_id) with
    | none => .error ⟨404, "Invoice not found"⟩
    | some client_row =>
      let item_rows := orderById (db.invoice_items.filter (fun it => it.invoice_id == invoice_id))
      let items := item_rows.filterMap (fun it =>
        (fetchProduct db it.product_id).map (fun p =>
          ({ product_id := it.product_id
             name := p.name
             unit_price := it.unit_price
             quantity := it.quantity
             line_total := it.line_total } : InvoiceItemResponse)))
      .ok { id := invoice_row.id
            invoice_no := invoice_row.invoice_no
            issue_date := invoice_row.issue_date
            due_date := invoice_row.due_date
            client := { id := client_row.id
                        name := client_row.name
                        address := client_row.address
                        company_registration_no := client_row.company_registration_no }
            address := invoice_row.address
            items := items
            tax := invoice_row.tax
            total := invoice_row.total }

/-- Endpoint `DELETE /invoices/...` (`delete_invoice`): 404 if absent, else delete
the line items, then the header. -/
def delete_invoice (db : DB) (invoice_id : Nat) : Except HTTPError Unit × DB :=
  match db.invoices.find? (fun r => r.id == invoice_id) with
  | none => (.error ⟨404, "Invoice not found"⟩, db)
  | some _ =>
    (.ok (),
     { db with
       invoice_items := db.invoice_items.filter (fun it => !(it.invoice_id == invoice_id))
       invoices := db.invoices.filter (fun r => !(r.id == invoice_id)) })

deriving instance DecidableEq for Except

/-! ## Auxiliary definitions used to state and settle the claims -/

/-- The price the code reads for an item's product at call time
(0 is irrelevant filler for the missing-product case, in which
`create_invoice` raises before using any price). -/
def sourcePrice (db : DB) (it : InvoiceItemCreate) : ℚ :=
  match fetchProduct db it.product_id with
  | some p => p.price
  | none => 0

/-- The product id of the first item of the list whose product does not
exist, if any — the one the source's loop hits first. -/
def firstMissingProduct (db : DB) : List InvoiceItemCreate → Option Nat
  | [] => none
  | item :: rest =>
    match fetchProduct db item.product_id with
    | none => some item.product_id
    | some _ => firstMissingProduct db rest

/-- The request passes the explicit-number conflict check of lines 81-85:
either no (truthy) number is supplied, or the supplied number is free. -/
def passesNoCheck (db : DB) (p : InvoiceCreate) : Bool :=
  match truthyNo p.invoice_no with
  | some s => !(invoiceNoExists db s)
  | none => true

/-- The request asks for an auto-generated number (Python-falsy
`invoice_no`, i.e. `None` or `""`). -/
def autoRequested (p : InvoiceCreate) : Bool :=
  match truthyNo p.invoice_no with
  | some _ => false
  | none => true

/-- The `invoice_items` rows the insert loop writes for invoice
`invoice_id`, starting at `AUTOINCREMENT` value `k`, in input order. -/
def mkRows (invoice_id : Nat) : Nat → List InvoiceItemResponse → List ItemRow
  | _, [] => []
  | k, item :: rest =>
    { id := k
      invoice_id := invoice_id
      product_id := item.product_id
      quantity := item.quantity
      unit_price := item.unit_price
      line_total := item.line_total } :: mkRows invoice_id (k + 1) rest

/-- A state-changing API call: `POST /invoices` or `DELETE /invoices/{id}`. -/
inductive Op
  | create (p : InvoiceCreate)
  | del (invoice_id : Nat)
deriving DecidableEq, Repr

/-- The database state after one API call. -/
def applyOp (db : DB) : Op → DB
  | .create p => (create_invoice db p).2
  | .del i => (delete_invoice db i).2

/-- The database state after a sequence of API calls. -/
def applyOps : DB → List Op → DB
  | db, [] => db
  | db, op :: ops => applyOps (applyOp db op) ops

/-- All invoice numbers currently stored. -/
def storedNos (db : DB) : List String :=
  db.invoices.map (fun r => r.invoice_no)

/-- Consistency of `AUTOINCREMENT` for the `invoices` table: the counter is
ahead of every stored primary key.  (sqlite guarantees this; it holds of
the fresh schema and is preserved by every operation.) -/
def InvCounter (db : DB) : Prop :=
  maxInvoiceId db < db.nextInvoiceId

/-- Well-formedness used for the read-back claims: every stored invoice id
and every item's owning-invoice id is below the `AUTOINCREMENT` counter.
(sqlite guarantees this; preserved by every operation.) -/
def WF (db : DB) : Prop :=
  (∀ r ∈ db.invoices, r.id < db.nextInvoiceId) ∧
  (∀ it ∈ db.invoice_items, it.invoice_id < db.nextInvoiceId)

/-- The `UNIQUE` invariant of `invoices.invoice_no`: all stored invoice
numbers are pairwise distinct. -/
def NodupNos (db : DB) : Prop :=
  (storedNos db).Nodup

/-- The numeric tags of the invoice numbers auto-generated along a sequence
of create calls, in assignment order (the number assigned is
`"INV-" ++ pad5` of the tag; see `_generate_invoice_no`). -/
def autoTags : DB → List InvoiceCreate → List Nat
  | _, [] => []
  | db, p :: ps =>
    match create_invoice db p with
    | (.ok _, db2) =>
      if autoRequested p then (maxInvoiceId db + 1) :: autoTags db2 ps
      else autoTags db2 ps
    | (.error _, db2) => autoTags db2 ps

/-! ## Concrete fixture data (the seed rows of the migration) used by
counterexamples and witnesses -/

/-- First seeded client of the migration. -/
def demoClient : Client :=
  { id := 1
    name := "Stellar Industries"
    address := "100 Market Street, Springfield"
    company_registration_no := "REG-10001" }

/-- First seeded product of the migration. -/
def demoProduct : Product :=
  { id := 1, name := "Website Design", price := 1500 }

/-- A fresh database right after the migration (restricted to one client
and one product), `AUTOINCREMENT` counters at 1. -/
def demoDB : DB :=
  { clients := [demoClient]
    products := [demoProduct]
    invoices := []
    invoice_items := []
    nextInvoiceId := 1
    nextItemId := 1 }

/-- The create request of the spec's worked example: product 1, quantity 2,
tax 0, no explicit number, no address override. -/
def demoReq : InvoiceCreate :=
  { invoice_no := none
    issue_date := "2026-01-01"
    due_date := "2026-02-01"
    client_id := 1
    address := none
    items := [{ product_id := 1, quantity := 2 }]
    tax := 0 }

/-- The response `create_invoice demoDB demoReq` returns. -/
def demoResp : InvoiceResponse :=
  { id := 1
    invoice_no := "INV-00001"
    issue_date := "2026-01-01"
    due_date := "2026-02-01"
    client := { id := 1
                name := "Stellar Industries"
                address := "100 Market Street, Springfield"
                company_registration_no := "REG-10001" }
    address := "100 Market Street, Springfield"
    items := [{ product_id := 1
                name := "Website Design"
                unit_price := 1500
                quantity := 2
                line_total := 3000 }]
    tax := 0
    total := 3000 }

/-- The database state `create_invoice demoDB demoReq` leaves behind. -/
def demoDB2 : DB :=
  { clients := [demoClient]
    products := [demoProduct]
    invoices := [{ id := 1
                   invoice_no := "INV-00001"
                   issue_date := "2026-01-01"
                   due_date := "2026-02-01"
                   client_id := 1
                   address := "100 Market Street, Springfield"
                   tax := 0
                   total := 3000 }]
    invoice_items := [{ id := 1
                        invoice_id := 1
                        product_id := 1
                        quantity := 2
                        unit_price := 1500
                        line_total := 3000 }]
    nextInvoiceId := 2
    nextItemId := 2 }

/-- Request `demoReq` with an empty item list. -/
def demoReqNoItems : InvoiceCreate :=
  { demoReq with items := [] }

/-- Request `demoReq` asking for product 2, which does not exist in `demoDB`. -/
def demoReqBadProduct : InvoiceCreate :=
  { demoReq with items := [{ product_id := 2, quantity := 5 }] }

/-- Request `demoReq` supplying the explicit invoice number `CUSTOM-1`. -/
def demoReqCustom : InvoiceCreate :=
  { demoReq with invoice_no := some "CUSTOM-1" }

/-- Request `demoReq` supplying the empty string as its explicit invoice number. -/
def demoReqEmptyNo : InvoiceCreate :=
  { demoReq with invoice_no := some "" }

/-- Request `demoReq` supplying the empty string as its explicit address override. -/
def demoReqEmptyAddr : InvoiceCreate :=
  { demoReq with address := some "" }

/-- The state after a second auto-numbered create on `demoDB2` (invoices
1 and 2, numbered `INV-00001` and `INV-00002`). -/
def demoDB3 : DB :=
  (create_invoice demoDB2 demoReq).2

/-- The state after deleting invoice 2 from `demoDB3`: the highest-id
invoice is gone, so `MAX(id)` drops back to 1. -/
def demoDB4 : DB :=
  (delete_invoice demoDB3 2).2

/-- A database already holding an invoice numbered `CUSTOM-1`. -/
def demoDBc : DB :=
  { demoDB with
    invoices := [{ id := 1
                   invoice_no := "CUSTOM-1"
                   issue_date := "2026-01-01"
                   due_date := "2026-02-01"
                   client_id := 1
                   address := "100 Market Street, Springfield"
                   tax := 0
                   total := 0 }]
    nextInvoiceId := 2 }

/-- A database whose single invoice (id 1) carries the explicitly chosen
number `INV-00002`; the next auto-generated number collides with it. -/
def demoDBx : DB :=
  { demoDB with
    invoices := [{ id := 1
                   invoice_no := "INV-00002"
                   issue_date := "2026-01-01"
                   due_date := "2026-02-01"
                   client_id := 1
                   address := "100 Market Street, Springfield"
                   tax := 0
                   total := 0 }]
    nextInvoiceId := 2 }

/-! ## Helper lemmas about the item-insert loop -/

theorem insertItems_clients (i : Nat) (rows : List InvoiceItemResponse) :
    ∀ db, (insertItems i db rows).clients = db.clients := by
  induction rows with
  | nil => intro db; rfl
  | cons x xs ih => intro db; simp only [insertItems]; exact ih _

theorem insertItems_products (i : Nat) (rows : List InvoiceItemResponse) :
    ∀ db, (insertItems i db rows).products = db.products := by
  induction rows with
  | nil => intro db; rfl
  | cons x xs ih => intro db; simp only [insertItems]; exact ih _

theorem insertItems_invoices (i : Nat) (rows : List InvoiceItemResponse) :
    ∀ db, (insertItems i db rows).invoices = db.invoices := by
  induction rows with
  | nil => intro db; rfl
  | cons x xs ih => intro db; simp only [insertItems]; exact ih _

theorem insertItems_nextInvoiceId (i : Nat) (rows : List InvoiceItemResponse) :
    ∀ db, (insertItems i db rows).nextInvoiceId = db.nextInvoiceId := by
  induction rows with
  | nil => intro db; rfl
  | cons x xs ih => intro db; simp only [insertItems]; exact ih _

theorem insertItems_items (i : Nat) (rows : List InvoiceItemResponse) :
    ∀ db, (insertItems i db rows).invoice_items =
      db.invoice_items ++ mkRows i db.nextItemId rows := by
  induction rows with
  | nil => intro db; simp [insertItems, mkRows]
  | cons x xs ih =>
    intro db
    simp only [insertItems, mkRows]
    rw [ih]
    simp

/-! ## Helper lemmas about `MAX(id)` -/

theorem maxIdOf_acc (l : List InvoiceRow) :
    ∀ a : Nat, l.foldl (fun m r => max m r.id) a = max a (maxIdOf l) := by
  induction l with
  | nil => intro a; simp [maxIdOf]
  | cons x xs ih =>
    intro a
    have h1 : maxIdOf (x :: xs) = max (max 0 x.id) (maxIdOf xs) := by
      show List.foldl (fun m r => max m r.id) (max 0 x.id) xs = _
      rw [ih]
    show List.foldl (fun m r => max m r.id) (max a x.id) xs = max a (maxIdOf (x :: xs))
    rw [ih, h1, Nat.zero_max, max_assoc]

theorem maxIdOf_cons (x : InvoiceRow) (xs : List InvoiceRow) :
    maxIdOf (x :: xs) = max x.id (maxIdOf xs) := by
  show List.foldl (fun m r => max m r.id) (max 0 x.id) xs = max x.id (maxIdOf xs)
  rw [maxIdOf_acc, Nat.zero_max]

theorem le_maxIdOf {r : InvoiceRow} {l : List InvoiceRow} (h : r ∈ l) :
    r.id ≤ maxIdOf l := by
  induction l with
  | nil => cases h
  | cons x xs ih =>
    rw [maxIdOf_cons]
    rcases List.mem_cons.mp h with h | h
    · subst h; exact le_max_left _ _
    · exact le_trans (ih h) (le_max_right _ _)

theorem maxIdOf_le {l : List InvoiceRow} {b : Nat} (h0 : ∀ r ∈ l, r.id ≤ b) :
    maxIdOf l ≤ b := by
  induction l with
  | nil => simp [maxIdOf]
  | cons x xs ih =>
    rw [maxIdOf_cons]
    exact max_le (h0 x (by simp)) (ih fun r hr => h0 r (by simp [hr]))

theorem maxIdOf_append (l : List InvoiceRow) (x : InvoiceRow) :
    maxIdOf (l ++ [x]) = max (maxIdOf l) x.id := by
  simp only [maxIdOf, List.foldl_append, List.foldl_cons, List.foldl_nil]

theorem maxIdOf_filter_le (l : List InvoiceRow) (p : InvoiceRow → Bool) :
    maxIdOf (l.filter p) ≤ maxIdOf l :=
  maxIdOf_le fun r hr => le_maxIdOf (List.mem_of_mem_filter hr)

/-! ## Sums of line totals -/

theorem foldl_line_total (rows : List InvoiceItemResponse) :
    ∀ t : ℚ, rows.foldl (fun a r => a + r.line_total) t
      = t + (rows.map (fun r => r.line_total)).sum := by
  induction rows with
  | nil => intro t; simp
  | cons x xs ih => intro t; simp [List.foldl_cons, ih, add_assoc]

/-! ## Helper lemmas about the pricing loop -/

theorem resolveItems_ok (db : DB) :
    ∀ items rows, resolveItems db items = .ok rows →
      rows.map (fun r => r.unit_price) = items.map (sourcePrice db)
      ∧ rows.map (fun r => r.quantity) = items.map (fun it => it.quantity)
      ∧ (∀ x ∈ rows, x.line_total = x.unit_price * (x.quantity : ℚ))
      ∧ (rows.map (fun r => r.line_total)).sum
          = (items.map (fun it => sourcePrice db it * (it.quantity : ℚ))).sum
      ∧ (∀ x ∈ rows, fetchProduct db x.product_id =
          some { id := x.product_id, name := x.name, price := x.unit_price }) := by
  intro items
  induction items with
  | nil =>
    intro rows h
    simp only [resolveItems] at h
    injection h with h
    subst h
    simp
  | cons item rest ih =>
    intro rows h
    simp only [resolveItems] at h
    cases hp : fetchProduct db item.product_id with
    | none => rw [hp] at h; simp at h
    | some product =>
      rw [hp] at h
      cases hr : resolveItems db rest with
      | error e => rw [hr] at h; simp at h
      | ok tail =>
        rw [hr] at h
        simp only [] at h
        injection h with h
        subst h
        obtain ⟨h1, h2, h3, h4, h5⟩ := ih tail hr
        have hpid : product.id = item.product_id := by
          have := List.find?_some hp
          simpa using this
        have hsp : sourcePrice db item = product.price := by
          simp [sourcePrice, hp]
        refine ⟨?_, ?_, ?_, ?_, ?_⟩
        · simp [h1, hsp]
        · simp [h2]
        · intro x hx
          rcases List.mem_cons.mp hx with h | h
          · subst h; rfl
          · exact h3 x h
        · simp only [List.map_cons, List.sum_cons, h4, hsp]
        · intro x hx
          rcases List.mem_cons.mp hx with h | h
          · subst h
            show fetchProduct db product.id = some product
            rw [hpid]
            exact hp
          · exact h5 x h

theorem resolveItems_firstMissing (db : DB) :
    ∀ items pid, firstMissingProduct db items = some pid →
      resolveItems db items = .error ⟨404, "Product not found: " ++ toString pid⟩ := by
  intro items
  induction items with
  | nil => intro pid h; simp [firstMissingProduct] at h
  | cons item rest ih =>
    intro pid h
    cases hp : fetchProduct db item.product_id with
    | none =>
      simp only [firstMissingProduct, hp] at h
      injection h with h
      subst h
      simp [resolveItems, hp]
    | some product =>
      simp only [firstMissingProduct, hp] at h
      simp [resolveItems, hp, ih pid h]

/-! ## String helpers -/

theorem data_append (s t : String) : (s ++ t).data = s.data ++ t.data := by
  cases s; cases t; rfl

theorem gen_ne_empty (db : DB) : _generate_invoice_no db ≠ "" := by
  unfold _generate_invoice_no
  intro h
  have h2 := congrArg String.data h
  rw [data_append] at h2
  have h3 : "INV-".data = [] := (List.append_eq_nil.mp h2).1
  simp at h3

/-! ## `find?` helpers -/

theorem find?_append_none {α : Type} (p : α → Bool) {l : List α} (l' : List α)
    (h : l.find? p = none) : (l ++ l').find? p = l'.find? p := by
  induction l with
  | nil => simp
  | cons x xs ih =>
    cases hp : p x with
    | true => simp [List.find?_cons, hp] at h
    | false =>
      simp only [List.find?_cons, hp] at h
      simp only [List.cons_append, List.find?_cons, hp]
      exact ih h

/-! ## `ORDER BY id` helpers -/

theorem insertById_of_le (r : ItemRow) (l : List ItemRow) (h : ∀ x ∈ l, r.id ≤ x.id) :
    insertById r l = r :: l := by
  cases l with
  | nil => rfl
  | cons x xs => simp [insertById, h x (by simp)]

theorem orderById_sorted :
    ∀ l : List ItemRow, List.Pairwise (fun a b => a.id ≤ b.id) l → orderById l = l := by
  intro l
  induction l with
  | nil => intro _; rfl
  | cons x xs ih =>
    intro h
    obtain ⟨h1, h2⟩ := List.pairwise_cons.mp h
    rw [orderById, ih h2]
    exact insertById_of_le x xs h1

/-! ## Helper lemmas about the shape of inserted item rows -/

theorem mkRows_invoice_id (i : Nat) (rows : List InvoiceItemResponse) :
    ∀ k, ∀ x ∈ mkRows i k rows, x.invoice_id = i := by
  induction rows with
  | nil => intro k x hx; simp [mkRows] at hx
  | cons a rest ih =>
    intro k x hx
    simp only [mkRows] at hx
    rcases List.mem_cons.mp hx with h | h
    · subst h; rfl
    · exact ih (k + 1) x h

theorem mkRows_id_ge (i : Nat) (rows : List InvoiceItemResponse) :
    ∀ k, ∀ x ∈ mkRows i k rows, k ≤ x.id := by
  induction rows with
  | nil => intro k x hx; simp [mkRows] at hx
  | cons a rest ih =>
    intro k x hx
    simp only [mkRows] at hx
    rcases List.mem_cons.mp hx with h | h
    · subst h; exact le_refl _
    · exact le_trans (Nat.le_succ k) (ih (k + 1) x h)

theorem mkRows_sorted (i : Nat) (rows : List InvoiceItemResponse) :
    ∀ k, List.Pairwise (fun a b => a.id ≤ b.id) (mkRows i k rows) := by
  induction rows with
  | nil => intro k; simp [mkRows]
  | cons a rest ih =>
    intro k
    simp only [mkRows]
    refine List.pairwise_cons.mpr ⟨?_, ih (k + 1)⟩
    intro y hy
    have hk := mkRows_id_ge i rest (k + 1) y hy
    show k ≤ y.id
    omega

theorem mkRows_join (db : DB) (i : Nat) :
    ∀ rows : List InvoiceItemResponse,
      (∀ x ∈ rows, fetchProduct db x.product_id =
        some { id := x.product_id, name := x.name, price := x.unit_price }) →
      ∀ k, (mkRows i k rows).filterMap (fun it =>
        (fetchProduct db it.product_id).map (fun p =>
          ({ product_id := it.product_id
             name := p.name
             unit_price := it.unit_price
             quantity := it.quantity
             line_total := it.line_total } : InvoiceItemResponse))) = rows := by
  intro rows
  induction rows with
  | nil => intro _ k; rfl
  | cons a rest ih =>
    intro h k
    simp only [mkRows, List.filterMap_cons]
    rw [show fetchProduct db a.product_id =
      some { id := a.product_id, name := a.name, price := a.unit_price } from
        h a (by simp)]
    simp only [Option.map_some']
    rw [ih (fun x hx => h x (by simp [hx])) (k + 1)]

/-! ## Characterisation of `create_invoice` -/

theorem finishCreate_ok {db : DB} {p : InvoiceCreate} {client_row : Client}
    {no : String} {r : InvoiceResponse} {db2 : DB}
    (h : finishCreate db p client_row no = (.ok r, db2)) :
    ∃ rows, resolveItems db p.items = .ok rows
      ∧ invoiceNoExists db no = false
      ∧ r = { id := db.nextInvoiceId
              invoice_no := no
              issue_date := p.issue_date
              due_date := p.due_date
              client := { id := client_row.id
                          name := client_row.name
                          address := client_row.address
                          company_registration_no := client_row.company_registration_no }
              address := resolveAddress p client_row
              items := rows
              tax := p.tax
              total := rows.foldl (fun t x => t + x.line_total) 0 + p.tax }
      ∧ db2 = insertItems db.nextInvoiceId
          { db with
            invoices := db.invoices ++
              [{ id := db.nextInvoiceId
                 invoice_no := no
                 issue_date := p.issue_date
                 due_date := p.due_date
                 client_id := p.client_id
                 address := resolveAddress p client_row
                 tax := p.tax
                 total := rows.foldl (fun t x => t + x.line_total) 0 + p.tax }]
            nextInvoiceId := db.nextInvoiceId + 1 } rows := by
  simp only [finishCreate] at h
  split at h
  · exact absurd h (by simp)
  next item_rows hrows =>
    split at h
    · exact absurd h (by simp)
    next hex =>
      rw [Prod.mk.injEq] at h
      obtain ⟨h1, h2⟩ := h
      injection h1 with h1
      exact ⟨item_rows, hrows, by simpa using hex, h1.symm, h2.symm⟩

theorem finishCreate_error_state {db : DB} {p : InvoiceCreate} {client_row : Client}
    {no : String} {e : HTTPError} {db2 : DB}
    (h : finishCreate db p client_row no = (.error e, db2)) : db2 = db := by
  simp only [finishCreate] at h
  split at h
  · cases h; rfl
  · split at h
    · cases h; rfl
    · exact absurd (congrArg Prod.fst h) (by simp)

theorem create_ok_spec {db : DB} {p : InvoiceCreate} {r : InvoiceResponse} {db2 : DB}
    (h : create_invoice db p = (.ok r, db2)) :
    ∃ c rows no,
      _fetch_client db p.client_id = some c
      ∧ resolveItems db p.items = .ok rows
      ∧ invoiceNoExists db no = false
      ∧ (truthyNo p.invoice_no = some no ∨
          (truthyNo p.invoice_no = none ∧ no = _generate_invoice_no db))
      ∧ r = { id := db.nextInvoiceId
              invoice_no := no
              issue_date := p.issue_date
              due_date := p.due_date
              client := { id := c.id
                          name := c.name
                          address := c.address
                          company_registration_no := c.company_registration_no }
              address := resolveAddress p c
              items := rows
              tax := p.tax
              total := rows.foldl (fun t x => t + x.line_total) 0 + p.tax }
      ∧ db2 = insertItems db.nextInvoiceId
          { db with
            invoices := db.invoices ++
              [{ id := db.nextInvoiceId
                 invoice_no := no
                 issue_date := p.issue_date
                 due_date := p.due_date
                 client_id := p.client_id
                 address := resolveAddress p c
                 tax := p.tax
                 total := rows.foldl (fun t x => t + x.line_total) 0 + p.tax }]
            nextInvoiceId := db.nextInvoiceId + 1 } rows := by
  unfold create_invoice at h
  split at h
  · exact absurd h (by simp)
  split at h
  · exact absurd h (by simp)
  next client_row hc =>
    split at h
    next s hs =>
      split at h
      · exact absurd h (by simp)
      next hex =>
        obtain ⟨rows, h1, h2, h3, h4⟩ := finishCreate_ok h
        exact ⟨client_row, rows, s, hc, h1, h2, Or.inl hs, h3, h4⟩
    next hs =>
      obtain ⟨rows, h1, h2, h3, h4⟩ := finishCreate_ok h
      exact ⟨client_row, rows, _generate_invoice_no db, hc, h1, h2,
        Or.inr ⟨hs, rfl⟩, h3, h4⟩

theorem create_error_state {db : DB} {p : InvoiceCreate} {e : HTTPError} {db2 : DB}
    (h : create_invoice db p = (.error e, db2)) : db2 = db := by
  unfold create_invoice at h
  split at h
  · cases h; rfl
  split at h
  · cases h; rfl
  next client_row hc =>
    split at h
    next s hs =>
      split at h
      · cases h; rfl
      · exact finishCreate_error_state h
    next hs =>
      exact finishCreate_error_state h

/-- Convenience repackaging of `create_ok_spec`: the state after a
successful create is the old state plus one header row and its item rows;
clients and products are untouched. -/
theorem create_ok_state {db : DB} {p : InvoiceCreate} {r : InvoiceResponse} {db2 : DB}
    (h : create_invoice db p = (.ok r, db2)) :
    db2.clients = db.clients
    ∧ db2.products = db.products
    ∧ db2.nextInvoiceId = db.nextInvoiceId + 1
    ∧ invoiceNoExists db r.invoice_no = false
    ∧ r.id = db.nextInvoiceId
    ∧ ∃ hdr : InvoiceRow, db2.invoices = db.invoices ++ [hdr]
        ∧ hdr.id = r.id ∧ hdr.invoice_no = r.invoice_no ∧ hdr.address = r.address
        ∧ hdr.tax = r.tax ∧ hdr.total = r.total ∧ hdr.client_id = p.client_id
        ∧ hdr.issue_date = r.issue_date ∧ hdr.due_date = r.due_date
        ∧ db2.invoice_items = db.invoice_items ++ mkRows r.id db.nextItemId r.items := by
  obtain ⟨c, rows, no, hc, hrows, hfree, hno, hr, hdb⟩ := create_ok_spec h
  subst hr
  subst hdb
  refine ⟨insertItems_clients _ _ _, insertItems_products _ _ _, ?_, hfree, rfl,
    { id := db.nextInvoiceId
      invoice_no := no
      issue_date := p.issue_date
      due_date := p.due_date
      client_id := p.client_id
      address := resolveAddress p c
      tax := p.tax
      total := rows.foldl (fun t x => t + x.line_total) 0 + p.tax },
    ?_, rfl, rfl, rfl, rfl, rfl, rfl, rfl, rfl, ?_⟩
  · rw [insertItems_nextInvoiceId]
  · rw [insertItems_invoices]
  · rw [insertItems_items]

/-- A successful auto-numbered create assigns the number
`INV-` + zero-padded (max id + 1). -/
theorem create_auto_no {db : DB} {p : InvoiceCreate} {r : InvoiceResponse} {db2 : DB}
    (ha : autoRequested p = true) (h : create_invoice db p = (.ok r, db2)) :
    r.invoice_no = "INV-" ++ pad5 (maxInvoiceId db + 1) := by
  obtain ⟨c, rows, no, _, _, _, hno, hr, _⟩ := create_ok_spec h
  subst hr
  show no = _
  unfold autoRequested at ha
  rcases hno with h1 | ⟨h2, h3⟩
  · rw [h1] at ha; simp at ha
  · rw [h3]; rfl

/-! ## Invariant preservation -/

theorem create_ok_maxId {db : DB} {p : InvoiceCreate} {r : InvoiceResponse} {db2 : DB}
    (hInv : InvCounter db) (h : create_invoice db p = (.ok r, db2)) :
    maxInvoiceId db2 = db.nextInvoiceId := by
  obtain ⟨-, -, -, -, hid, hdr, hinvs, hdrid, -⟩ := create_ok_state h
  show maxIdOf db2.invoices = db.nextInvoiceId
  rw [hinvs, maxIdOf_append, hdrid, hid]
  unfold InvCounter maxInvoiceId at hInv
  omega

theorem create_preserves_counter {db : DB} {p : InvoiceCreate} (hInv : InvCounter db) :
    InvCounter (create_invoice db p).2 := by
  cases hres : create_invoice db p with
  | mk res db2 =>
    cases res with
    | error e =>
      have : db2 = db := create_error_state hres
      subst this
      exact hInv
    | ok r =>
      have h1 : maxInvoiceId db2 = db.nextInvoiceId := create_ok_maxId hInv hres
      have h2 : db2.nextInvoiceId = db.nextInvoiceId + 1 := (create_ok_state hres).2.2.1
      show maxInvoiceId db2 < db2.nextInvoiceId
      omega

theorem delete_preserves_counter {db : DB} {i : Nat} (hInv : InvCounter db) :
    InvCounter (delete_invoice db i).2 := by
  unfold delete_invoice
  split
  · exact hInv
  · unfold InvCounter maxInvoiceId at hInv ⊢
    exact lt_of_le_of_lt (maxIdOf_filter_le _ _) hInv

theorem applyOp_counter {db : DB} {op : Op} (hInv : InvCounter db) :
    InvCounter (applyOp db op) := by
  cases op with
  | create p => exact create_preserves_counter hInv
  | del i => exact delete_preserves_counter hInv

theorem applyOps_counter : ∀ (ops : List Op) (db : DB), InvCounter db →
    InvCounter (applyOps db ops) := by
  intro ops
  induction ops with
  | nil => intro db h; exact h
  | cons op rest ih => intro db h; exact ih _ (applyOp_counter h)

theorem create_preserves_nodup {db : DB} {p : InvoiceCreate} (hN : NodupNos db) :
    NodupNos (create_invoice db p).2 := by
  cases hres : create_invoice db p with
  | mk res db2 =>
    cases res with
    | error e =>
      have : db2 = db := create_error_state hres
      subst this
      exact hN
    | ok r =>
      obtain ⟨-, -, -, hfree, -, hdr, hinvs, -, hdrno, -⟩ := create_ok_state hres
      show (storedNos db2).Nodup
      unfold storedNos
      rw [hinvs, List.map_append]
      rw [List.nodup_append]
      refine ⟨hN, by simp, ?_⟩
      intro a ha hb
      simp only [List.map_cons, List.map_nil, List.mem_singleton] at hb
      subst hb
      rw [show hdr.invoice_no = r.invoice_no from hdrno] at ha
      obtain ⟨row, hrow, heq⟩ := List.mem_map.mp ha
      have := (List.any_eq_false.mp hfree) row hrow
      simp only [beq_iff_eq] at this
      exact this heq

theorem delete_preserves_nodup {db : DB} {i : Nat} (hN : NodupNos db) :
    NodupNos (delete_invoice db i).2 := by
  unfold delete_invoice
  split
  · exact hN
  · show (List.map _ (db.invoices.filter _)).Nodup
    exact List.Nodup.sublist (List.Sublist.map _ (List.filter_sublist _)) hN

theorem applyOp_nodup {db : DB} {op : Op} (hN : NodupNos db) :
    NodupNos (applyOp db op) := by
  cases op with
  | create p => exact create_preserves_nodup hN
  | del i => exact delete_preserves_nodup hN

theorem applyOps_nodup : ∀ (ops : List Op) (db : DB), NodupNos db →
    NodupNos (applyOps db ops) := by
  intro ops
  induction ops with
  | nil => intro db h; exact h
  | cons op rest ih => intro db h; exact ih _ (applyOp_nodup h)

theorem autoTags_chain :
    ∀ (ps : List InvoiceCreate) (db : DB), InvCounter db →
      List.Chain' (· < ·) (autoTags db ps)
      ∧ ∀ n ∈ autoTags db ps, maxInvoiceId db < n := by
  intro ps
  induction ps with
  | nil => intro db h; simp [autoTags]
  | cons p rest ih =>
    intro db hInv
    cases hres : create_invoice db p with
    | mk res db2 =>
      cases res with
      | error e =>
        have hdb : db2 = db := create_error_state hres
        rw [hdb] at hres
        have h0 := ih db hInv
        have htags : autoTags db (p :: rest) = autoTags db rest := by
          simp [autoTags, hres]
        rw [htags]
        exact h0
      | ok r =>
        have hmax : maxInvoiceId db2 = db.nextInvoiceId := create_ok_maxId hInv hres
        have hnext : db2.nextInvoiceId = db.nextInvoiceId + 1 := (create_ok_state hres).2.2.1
        have hInv2 : InvCounter db2 := by unfold InvCounter; omega
        obtain ⟨ihc, ihb⟩ := ih db2 hInv2
        unfold InvCounter at hInv
        cases ha : autoRequested p with
        | true =>
          have htags : autoTags db (p :: rest) = (maxInvoiceId db + 1) :: autoTags db2 rest := by
            simp [autoTags, hres, ha]
          rw [htags]
          constructor
          · apply List.chain'_cons'.mpr
            refine ⟨?_, ihc⟩
            intro b hb
            have hbmem : b ∈ autoTags db2 rest := List.mem_of_mem_head? hb
            have hbgt := ihb b hbmem
            omega
          · intro n hn
            rcases List.mem_cons.mp hn with h | h
            · omega
            · have := ihb n h
              omega
        | false =>
          have htags : autoTags db (p :: rest) = autoTags db2 rest := by
            simp [autoTags, hres, ha]
          rw [htags]
          refine ⟨ihc, ?_⟩
          intro n hn
          have := ihb n hn
          omega

/-! ## Concrete evaluation facts shared by witnesses -/

/-- Evaluating the spec's worked example: one item, product 1 (price 1500),
quantity 2, tax 0 gives total 3000 and number `INV-00001`. -/
theorem demo_create_eval : create_invoice demoDB demoReq = (.ok demoResp, demoDB2) := by
  simp only [demoDB, demoReq, demoClient, demoProduct, demoResp, demoDB2]
  simp [create_invoice, finishCreate, resolveItems, insertItems, _fetch_client, fetchProduct,
        truthyNo, _generate_invoice_no, maxInvoiceId, maxIdOf, pad5, invoiceNoExists,
        resolveAddress, List.find?]
  norm_num
  decide

theorem demoDB_counter : InvCounter demoDB := by
  show maxInvoiceId demoDB < demoDB.nextInvoiceId
  decide

theorem truthyNo_some_ne_empty {o : Option String} {s : String}
    (h : truthyNo o = some s) : s ≠ "" := by
  cases o with
  | none => simp [truthyNo] at h
  | some t =>
    by_cases ht : t = ""
    · simp [truthyNo, ht] at h
    · simp only [truthyNo, if_neg ht] at h
      injection h with h
      subst h
      exact ht

theorem isEmpty_false_of_ne_nil {l : List InvoiceItemCreate} (h : l ≠ []) :
    l.isEmpty = false := by
  cases hp : l with
  | nil => exact absurd hp h
  | cons a t => rfl

/-! ## The claims -/

/-- C1: for every create request that succeeds, the returned and the stored
total equal tax plus the sum over all items of quantity × (the product's
price as read at call time); the snapshotted unit prices are exactly the
call-time product prices item by item, and each item's line_total is that
snapshotted unit_price times its quantity. -/
theorem c1_total_snapshot {db : DB} {p : InvoiceCreate} {r : InvoiceResponse} {db2 : DB}
    (h : create_invoice db p = (.ok r, db2)) :
    r.total = p.tax + (p.items.map (fun it => (it.quantity : ℚ) * sourcePrice db it)).sum
    ∧ r.items.map (fun x => x.unit_price) = p.items.map (sourcePrice db)
    ∧ (∀ x ∈ r.items, x.line_total = x.unit_price * (x.quantity : ℚ))
    ∧ ∃ row ∈ db2.invoices, row.id = r.id ∧ row.total = r.total ∧ row.tax = r.tax := by
  obtain ⟨c, rows, no, hc, hrows, hfree, hno, hr, hdb⟩ := create_ok_spec h
  obtain ⟨hprices, hqty, hline, hsum, hprod⟩ := resolveItems_ok db p.items rows hrows
  obtain ⟨-, -, -, -, -, hdr, hinvs, hdrid, -, -, hdrtax, hdrtotal, -, -⟩ := create_ok_state h
  have hcomm : (p.items.map (fun it => (it.quantity : ℚ) * sourcePrice db it))
      = (p.items.map (fun it => sourcePrice db it * (it.quantity : ℚ))) := by
    induction p.items with
    | nil => rfl
    | cons a l ihl => simp only [List.map_cons, ihl, mul_comm]
  refine ⟨?_, ?_, ?_, hdr, by rw [hinvs]; simp, hdrid, hdrtotal, hdrtax⟩
  · rw [hr]
    show rows.foldl (fun t x => t + x.line_total) 0 + p.tax = _
    rw [foldl_line_total, hsum, hcomm]
    ring
  · rw [hr]
    show rows.map (fun x => x.unit_price) = _
    exact hprices
  · rw [hr]
    show ∀ x ∈ rows, _
    exact hline

/-- Witness for C1 at the spec's worked example. -/
theorem c1_total_snapshot_witness :
    create_invoice demoDB demoReq = (.ok demoResp, demoDB2)
    ∧ demoResp.total
        = demoReq.tax
          + (demoReq.items.map (fun it => (it.quantity : ℚ) * sourcePrice demoDB it)).sum :=
  ⟨demo_create_eval, (c1_total_snapshot demo_create_eval).1⟩

/-- C2: when the request reaches the item loop (non-empty items, existing
client, no number conflict) and some item's product is missing, the request
fails with 404 naming the first offending product id, and the database
state is returned unchanged — the loop runs before any insert. -/
theorem c2_missing_product_atomic {db : DB} {p : InvoiceCreate} {c : Client} {pid : Nat}
    (hitems : p.items ≠ [])
    (hc : _fetch_client db p.client_id = some c)
    (hchk : passesNoCheck db p = true)
    (hmiss : firstMissingProduct db p.items = some pid) :
    create_invoice db p = (.error ⟨404, "Product not found: " ++ toString pid⟩, db) := by
  have hres := resolveItems_firstMissing db p.items pid hmiss
  have hie := isEmpty_false_of_ne_nil hitems
  unfold create_invoice
  cases hno : truthyNo p.invoice_no with
  | none =>
    simp only [hie, Bool.false_eq_true, if_false, hc, hno]
    simp only [finishCreate, hres]
  | some s =>
    have hfree : invoiceNoExists db s = false := by
      unfold passesNoCheck at hchk
      rw [hno] at hchk
      simpa using hchk
    simp only [hie, Bool.false_eq_true, if_false, hc, hno, hfree, if_false]
    simp only [finishCreate, hres]

/-- Witness for C2: requesting nonexistent product 2 fails with the 404
naming product 2 and leaves the database unchanged. -/
theorem c2_missing_product_atomic_witness :
    create_invoice demoDB demoReqBadProduct
      = (.error ⟨404, "Product not found: " ++ toString 2⟩, demoDB) :=
  c2_missing_product_atomic (by decide) rfl (by decide) (by decide)

/-- C3: a create request with an empty item list fails with the 400
validation error and the database state is returned unchanged (the check
runs before the database session is even opened). -/
theorem c3_empty_items {db : DB} {p : InvoiceCreate} (h : p.items = []) :
    create_invoice db p = (.error ⟨400, "Invoice must include at least one item"⟩, db) := by
  unfold create_invoice
  rw [h]
  rfl

/-- Witness for C3. -/
theorem c3_empty_items_witness :
    create_invoice demoDB demoReqNoItems
      = (.error ⟨400, "Invoice must include at least one item"⟩, demoDB) :=
  c3_empty_items rfl

/-- C4: supplying a non-empty explicit invoice number either hits the 409
conflict (when taken) with the state unchanged, or the number is used
verbatim in the response and the stored header (bypassing generation). -/
theorem c4_explicit_number {db : DB} {p : InvoiceCreate} {s : String} {c : Client}
    (hs : p.invoice_no = some s) (hne : s ≠ "")
    (hitems : p.items ≠ []) (hc : _fetch_client db p.client_id = some c) :
    (invoiceNoExists db s = true →
      create_invoice db p = (.error ⟨409, "Invoice number already exists"⟩, db))
    ∧ (∀ r db2, create_invoice db p = (.ok r, db2) →
        r.invoice_no = s ∧ ∃ row ∈ db2.invoices, row.id = r.id ∧ row.invoice_no = s) := by
  have htr : truthyNo p.invoice_no = some s := by
    rw [hs]
    simp [truthyNo, hne]
  have hie := isEmpty_false_of_ne_nil hitems
  constructor
  · intro hex
    unfold create_invoice
    simp only [hie, Bool.false_eq_true, if_false, hc, htr, hex, if_true]
  · intro r db2 hok
    obtain ⟨c', rows, no, hc', hrows, hfree, hno, hr, hdb⟩ := create_ok_spec hok
    have hnos : no = s := by
      rcases hno with h1 | ⟨h2, -⟩
      · rw [htr] at h1
        injection h1 with h1
        exact h1.symm
      · rw [htr] at h2
        cases h2
    obtain ⟨-, -, -, -, -, hdr, hinvs, hdrid, hdrno, -⟩ := create_ok_state hok
    have hrno : r.invoice_no = s := by rw [hr]; exact hnos
    exact ⟨hrno, hdr, by rw [hinvs]; simp, hdrid, by rw [hdrno, hrno]⟩

/-- Witness for C4: the taken number `CUSTOM-1` yields the 409 conflict;
a fresh explicit number is stored verbatim. -/
theorem c4_explicit_number_witness :
    create_invoice demoDBc demoReqCustom
      = (.error ⟨409, "Invoice number already exists"⟩, demoDBc) :=
  (@c4_explicit_number demoDBc demoReqCustom "CUSTOM-1" demoClient
    rfl (by decide) (by decide) rfl).1 (by decide)

/-- C10: an empty-string explicit invoice number is Python-falsy, so the
request behaves exactly as if no number had been supplied (conflict check
skipped, number auto-generated); consequently every stored invoice number
is non-empty (explicit numbers are stored only when truthy, generated ones
start with `INV-`). -/
theorem c10_empty_no_autogen {db : DB} {p : InvoiceCreate} (h : p.invoice_no = some "") :
    create_invoice db p = create_invoice db { p with invoice_no := none }
    ∧ ∀ (db0 : DB) (p0 : InvoiceCreate),
        (∀ x ∈ db0.invoices, x.invoice_no ≠ "") →
        ∀ x ∈ (create_invoice db0 p0).2.invoices, x.invoice_no ≠ "" := by
  constructor
  · have htr : truthyNo p.invoice_no = none := by rw [h]; simp [truthyNo]
    show create_invoice db p = _
    unfold create_invoice
    rw [htr]
    rfl
  · intro db0 p0 hprev x hx
    cases hres : create_invoice db0 p0 with
    | mk res db2 =>
      rw [hres] at hx
      cases res with
      | error e =>
        have hdb : db2 = db0 := create_error_state hres
        rw [show (Prod.mk (Except.error e) db2).2 = db2 from rfl, hdb] at hx
        exact hprev x hx
      | ok r =>
        obtain ⟨-, -, -, -, -, hdr, hinvs, -, hdrno, -⟩ := create_ok_state hres
        obtain ⟨c, rows, no, -, -, -, hno, hrr, -⟩ := create_ok_spec hres
        rw [show (Prod.mk (Except.ok r) db2).2 = db2 from rfl, hinvs] at hx
        rcases List.mem_append.mp hx with hmem | hmem
        · exact hprev x hmem
        · rw [List.mem_singleton] at hmem
          subst hmem
          rw [hdrno]
          have hrno : r.invoice_no = no := by rw [hrr]
          rw [hrno]
          rcases hno with h1 | ⟨-, h2⟩
          · exact truthyNo_some_ne_empty h1
          · rw [h2]; exact gen_ne_empty db0

/-- Witness for C10: the empty-string number behaves as `None` from the
fresh database; the nonempty-number invariant is preserved there. -/
theorem c10_empty_no_autogen_witness :
    create_invoice demoDB demoReqEmptyNo
      = create_invoice demoDB { demoReqEmptyNo with invoice_no := none }
    ∧ ∀ x ∈ (create_invoice demoDB demoReq).2.invoices, x.invoice_no ≠ "" := by
  have h := @c10_empty_no_autogen demoDB demoReqEmptyNo rfl
  exact ⟨h.1, h.2 demoDB demoReq (by simp [demoDB])⟩

/-- C7: deleting a nonexistent invoice fails 404 with the state unchanged;
deleting an existing one succeeds, removes exactly its line items and its
header (clients and products untouched), after which a read returns 404. -/
theorem c7_delete {db : DB} (i : Nat) :
    (db.invoices.find? (fun row => row.id == i) = none →
      delete_invoice db i = (.error ⟨404, "Invoice not found"⟩, db))
    ∧ ((∃ x, db.invoices.find? (fun row => row.id == i) = some x) →
        (delete_invoice db i).1 = .ok ()
        ∧ (∀ it ∈ (delete_invoice db i).2.invoice_items, it.invoice_id ≠ i)
        ∧ get_invoice (delete_invoice db i).2 i = .error ⟨404, "Invoice not found"⟩
        ∧ (delete_invoice db i).2.clients = db.clients
        ∧ (delete_invoice db i).2.products = db.products
        ∧ (delete_invoice db i).2.invoices = db.invoices.filter (fun row => !(row.id == i))
        ∧ (delete_invoice db i).2.invoice_items
            = db.invoice_items.filter (fun it => !(it.invoice_id == i))) := by
  constructor
  · intro hnone
    unfold delete_invoice
    rw [hnone]
  · rintro ⟨x, hx⟩
    unfold delete_invoice
    rw [hx]
    refine ⟨rfl, ?_, ?_, rfl, rfl, rfl, rfl⟩
    · intro it hit
      have := List.of_mem_filter hit
      simpa using this
    · have hfnone : (db.invoices.filter (fun row => !(row.id == i))).find?
          (fun row => row.id == i) = none := by
        rw [List.find?_eq_none]
        intro a ha
        have := List.of_mem_filter ha
        simpa using this
      unfold get_invoice
      rw [show ({ db with
            invoice_items := db.invoice_items.filter (fun it => !(it.invoice_id == i))
            invoices := db.invoices.filter (fun row => !(row.id == i)) } : DB).invoices
          = db.invoices.filter (fun row => !(row.id == i)) from rfl, hfnone]

/-- Witness for C7: deleting id 7 from the fresh database is a 404; after
deleting invoice 1 from the one-invoice database, reading it is a 404. -/
theorem c7_delete_witness :
    delete_invoice demoDB 7 = (.error ⟨404, "Invoice not found"⟩, demoDB)
    ∧ get_invoice (delete_invoice demoDB2 1).2 1 = .error ⟨404, "Invoice not found"⟩ := by
  refine ⟨(@c7_delete demoDB 7).1 rfl, ?_⟩
  exact ((@c7_delete demoDB2 1).2
    ⟨{ id := 1
       invoice_no := "INV-00001"
       issue_date := "2026-01-01"
       due_date := "2026-02-01"
       client_id := 1
       address := "100 Market Street, Springfield"
       tax := 0
       total := 3000 }, rfl⟩).2.2.1

/-- C5 counterexample: the auto-generated number is derived from the
current `MAX(id) + 1`, so after the sequence create, create, delete-2,
create, the fourth call re-assigns `INV-00002` — the auto-generated
numbers `INV-00001`, `INV-00002`, `INV-00002` are not strictly increasing
in assignment order once a deletion intervenes. -/
theorem c5_counterexample :
    (create_invoice demoDB demoReq).1.map (fun r => r.invoice_no) = .ok "INV-00001"
    ∧ (create_invoice demoDB2 demoReq).1.map (fun r => r.invoice_no) = .ok "INV-00002"
    ∧ (delete_invoice demoDB3 2).1 = .ok ()
    ∧ (create_invoice demoDB4 demoReq).1.map (fun r => r.invoice_no) = .ok "INV-00002" :=
  ⟨rfl, rfl, rfl, rfl⟩

/-- C5 amended: an auto-generated number is always `INV-` followed by the
zero-padded value of `MAX(id) + 1`; along any sequence of create calls with
no intervening deletion the auto-generated numeric tags are strictly
increasing in assignment order; and across any sequence of operations
(deletions included) the stored invoice numbers stay pairwise distinct.
(The original claim's "strictly increasing across any sequence including
deletions" is refuted by `c5_counterexample`: deleting the highest-id
invoice lets `MAX(id) + 1` — and hence the assigned number — repeat.) -/
theorem c5_amended {db : DB} (hInv : InvCounter db) :
    (∀ p r db2, autoRequested p = true → create_invoice db p = (.ok r, db2) →
      r.invoice_no = "INV-" ++ pad5 (maxInvoiceId db + 1))
    ∧ (∀ ps : List InvoiceCreate, List.Chain' (· < ·) (autoTags db ps))
    ∧ (∀ ops : List Op, NodupNos db → NodupNos (applyOps db ops)) :=
  ⟨fun _ _ _ ha h => create_auto_no ha h,
   fun ps => (autoTags_chain ps db hInv).1,
   fun ops h => applyOps_nodup ops db h⟩

/-- Witness for the amended C5 at the fresh database: two consecutive
auto-numbered creates yield strictly increasing tags, and the stored
numbers stay distinct under a create followed by a delete. -/
theorem c5_amended_witness :
    List.Chain' (· < ·) (autoTags demoDB [demoReq, demoReq])
    ∧ NodupNos (applyOps demoDB [Op.create demoReq, Op.del 1]) := by
  have h := @c5_amended demoDB demoDB_counter
  exact ⟨h.2.1 [demoReq, demoReq],
    h.2.2 [Op.create demoReq, Op.del 1] (by simp [NodupNos, storedNos, demoDB])⟩

/-- C8 counterexample: a request that explicitly supplies the empty string
as its address does not get the empty string stored — Python's
`payload.address or client_row["address"]` treats `""` as absent, so the
client's address is stored and returned instead of the supplied one. -/
theorem c8_counterexample :
    demoReqEmptyAddr.address = some ""
    ∧ (create_invoice demoDB demoReqEmptyAddr).1.map (fun r => r.address)
        = .ok "100 Market Street, Springfield"
    ∧ ("100 Market Street, Springfield" : String) ≠ "" :=
  ⟨rfl, rfl, by decide⟩

/-- C8 amended: the stored and returned address is the request's explicit
address when a non-empty one is supplied; when the address is absent or
the empty string, it is the referenced client's stored address. -/
theorem c8_amended {db : DB} {p : InvoiceCreate} {r : InvoiceResponse} {db2 : DB} {c : Client}
    (hc : _fetch_client db p.client_id = some c)
    (h : create_invoice db p = (.ok r, db2)) :
    (∀ a, p.address = some a → a ≠ "" → r.address = a)
    ∧ ((p.address = none ∨ p.address = some "") → r.address = c.address)
    ∧ ∃ row ∈ db2.invoices, row.id = r.id ∧ row.address = r.address := by
  obtain ⟨c', rows, no, hc', hrows, hfree, hno, hr, hdb⟩ := create_ok_spec h
  have hcc : c' = c := by
    rw [hc] at hc'
    injection hc' with hc'
    exact hc'.symm
  obtain ⟨-, -, -, -, -, hdr, hinvs, hdrid, -, hdraddr, -⟩ := create_ok_state h
  have haddr : r.address = resolveAddress p c := by
    rw [hr]
    show resolveAddress p c' = resolveAddress p c
    rw [hcc]
  refine ⟨?_, ?_, hdr, by rw [hinvs]; simp, hdrid, hdraddr⟩
  · intro a ha hane
    rw [haddr]
    simp only [resolveAddress, ha, if_neg hane]
  · intro hcase
    rw [haddr]
    rcases hcase with h1 | h1
    · simp only [resolveAddress, h1]
    · simp [resolveAddress, h1]

/-- Witness for the amended C8: with no override the client's address is
used. -/
theorem c8_amended_witness : demoResp.address = demoClient.address :=
  (@c8_amended demoDB demoReq demoResp demoDB2 demoClient rfl demo_create_eval).2.1 (Or.inl rfl)

/-- C9 counterexample: a reachable storage failure — the `UNIQUE`
constraint rejecting an auto-generated number that collides with a stored
explicit one — is surfaced as a 500 whose client-visible detail embeds the
underlying sqlite diagnostic verbatim (`f"Database error: {exc}"`), rather
than a generic message hiding it. -/
theorem c9_counterexample :
    (create_invoice demoDBx demoReq).1
      = .error ⟨500, "Database error: " ++ uniqueViolationMsg⟩
    ∧ uniqueViolationMsg ≠ ""
    ∧ ("Database error: " ++ uniqueViolationMsg) ≠ "Database error: " :=
  ⟨rfl, by decide, by decide⟩

/-- C9 amended: a storage failure during create (the reachable one being
the `UNIQUE` violation on the header insert) is surfaced as a 500 whose
detail is the string `Database error: ` followed by the underlying
exception's own text — the internal diagnostic is included in the
client-visible message, not hidden behind a generic one. -/
theorem c9_amended {db : DB} {p : InvoiceCreate} {c : Client}
    {rows : List InvoiceItemResponse}
    (hitems : p.items ≠ []) (hc : _fetch_client db p.client_id = some c)
    (hauto : truthyNo p.invoice_no = none)
    (hrows : resolveItems db p.items = .ok rows)
    (hdup : invoiceNoExists db (_generate_invoice_no db) = true) :
    create_invoice db p
      = (.error ⟨500, "Database error: " ++ uniqueViolationMsg⟩, db) := by
  have hie := isEmpty_false_of_ne_nil hitems
  unfold create_invoice
  simp only [hie, Bool.false_eq_true, if_false, hc, hauto]
  simp only [finishCreate, hrows, hdup, if_true]

/-- Witness for the amended C9: the database whose invoice 1 explicitly
took the number `INV-00002` makes the next auto-numbered create collide. -/
theorem c9_amended_witness :
    create_invoice demoDBx demoReq
      = (.error ⟨500, "Database error: " ++ uniqueViolationMsg⟩, demoDBx) :=
  @c9_amended demoDBx demoReq demoClient
    [{ product_id := 1
       name := "Website Design"
       unit_price := demoProduct.price
       quantity := 2
       line_total := demoProduct.price * ((2 : ℕ) : ℚ) }]
    (by decide) rfl rfl rfl (by decide)

/-- C6: round-trip — reading a freshly created invoice back returns exactly
the creation response: same id, number, dates, client, address, tax,
total, and the same items in the original input order. -/
theorem c6_roundtrip {db : DB} {p : InvoiceCreate} {r : InvoiceResponse} {db2 : DB}
    (hwf : WF db) (h : create_invoice db p = (.ok r, db2)) :
    get_invoice db2 r.id = .ok r := by
  obtain ⟨c, rows, no, hc, hrows, hfree, hno, hr, hdb⟩ := create_ok_spec h
  obtain ⟨-, -, -, -, hprod⟩ := resolveItems_ok db p.items rows hrows
  obtain ⟨hcls, hprs, -, -, hid, hdr, hinvs, hdrid, hdrno, hdraddr, hdrtax, hdrtotal,
    hdrcid, hdriss, hdrdue, hitems⟩ := create_ok_state h
  have hritems : r.items = rows := by rw [hr]
  have hcrec : ({ id := c.id
                  name := c.name
                  address := c.address
                  company_registration_no := c.company_registration_no } : ClientResponse)
      = r.client := by rw [hr]
  have hfind : db2.invoices.find? (fun row => row.id == r.id) = some hdr := by
    rw [hinvs]
    rw [find?_append_none]
    · simp [List.find?, hdrid]
    · rw [List.find?_eq_none]
      intro x hx
      have hxlt := hwf.1 x hx
      simp only [beq_iff_eq]
      omega
  have hcf : db2.clients.find? (fun x => x.id == hdr.client_id) = some c := by
    rw [hcls, hdrcid]
    exact hc
  have hfilter : db2.invoice_items.filter (fun it => it.invoice_id == r.id)
      = mkRows r.id db.nextItemId r.items := by
    rw [hitems, List.filter_append]
    have h1 : db.invoice_items.filter (fun it => it.invoice_id == r.id) = [] := by
      rw [List.filter_eq_nil_iff]
      intro a ha
      have := hwf.2 a ha
      simp only [beq_iff_eq]
      omega
    have h2 : (mkRows r.id db.nextItemId r.items).filter (fun it => it.invoice_id == r.id)
        = mkRows r.id db.nextItemId r.items := by
      rw [List.filter_eq_self]
      intro a ha
      have := mkRows_invoice_id r.id r.items db.nextItemId a ha
      simp [this]
    rw [h1, h2]
    simp
  have hord : orderById (mkRows r.id db.nextItemId r.items)
      = mkRows r.id db.nextItemId r.items :=
    orderById_sorted _ (mkRows_sorted r.id r.items db.nextItemId)
  have hjoin : (mkRows r.id db.nextItemId r.items).filterMap (fun it =>
      (fetchProduct db2 it.product_id).map (fun q =>
        ({ product_id := it.product_id
           name := q.name
           unit_price := it.unit_price
           quantity := it.quantity
           line_total := it.line_total } : InvoiceItemResponse))) = r.items := by
    apply mkRows_join
    intro x hx
    show fetchProduct db2 x.product_id = _
    unfold fetchProduct
    rw [hprs]
    rw [hritems] at hx
    exact hprod x hx
  simp only [get_invoice, hfind, hcf, hfilter, hord, hjoin]
  rw [hdrid, hdrno, hdriss, hdrdue, hdraddr, hdrtax, hdrtotal, hcrec]

/-- Witness for C6 at the spec's worked example. -/
theorem c6_roundtrip_witness : get_invoice demoDB2 demoResp.id = .ok demoResp :=
  c6_roundtrip (by constructor <;> simp [demoDB]) demo_create_eval
